import Mathlib

/-!
Verification of the Research Ideation Agent pipeline.

This file gives a shallow embedding, in Lean 4, of the parts of the
repository that the verified properties talk about:

* `agents/collector.py` — abstract reconstruction from an inverted index,
  author/institution collection, CSV author serialization, and the batched,
  retrying vector-store insertion loop;
* `agents/generator.py` — response cleaning (reasoning-block stripping,
  code-fence removal), JSON-failure fallback, the year-sorted
  "state of the art" digest, and prompt assembly;
* `agents/evaluator.py` — the total-score correction policy and the
  stable descending sort by total score;
* `agents/translator.py` — per-topic translation preserving numeric scores
  and related-paper links.

External collaborators (the language model, the vector store, the HTTP
API, JSON parsing / schema validation) are modelled as oracle parameters:
a call that can raise an exception in Python is an `Option`-valued oracle,
`none` standing for the raised-and-caught exception.  Python's stable
`list.sort` / `sorted` is modelled by `List.insertionSort`, which is a
stable sort with the same extensional behaviour.  Python strings are
modelled as `String` / `List Char`, Python's unbounded `int` as `Int`,
and `dict` values that may be `None` or absent as `Option`.
-/

namespace RIA

/-! ### Python string primitives used by `generator.py` -/

/-- Characters removed by Python's `str.strip()` with no arguments. -/
def pyWhitespaceChar (c : Char) : Bool :=
  c = ' ' ∨ c = '\t' ∨ c = '\n' ∨ c = '\r' ∨ c = '\x0b' ∨ c = '\x0c'

/-- Models Python `str.strip()`: removes leading and trailing whitespace. -/
def pyStrip (s : List Char) : List Char :=
  ((s.dropWhile pyWhitespaceChar).reverse.dropWhile pyWhitespaceChar).reverse

/-- Finds the first occurrence of `pat` in `s`, returning the text before the
occurrence and the text after it (Python-style leftmost substring search). -/
def splitFirst (pat : List Char) : List Char → Option (List Char × List Char)
  | [] => if pat.isEmpty then some ([], []) else none
  | c :: cs =>
    if pat.isPrefixOf (c :: cs) then some ([], (c :: cs).drop pat.length)
    else (splitFirst pat cs).map (fun pr => (c :: pr.1, pr.2))

/-- Models Python's `pat in s` substring test. -/
def containsSub (s pat : List Char) : Bool :=
  (splitFirst pat s).isSome

/-- Fuel-driven worker for `removeThink`.  Each successful iteration removes
one non-greedy `<think>…</think>` match (the semantics of
`re.sub(r'<think>.*?</think>', '', s, flags=re.DOTALL)`); since every match
consumes at least one character of `s`, fuel `s.length` always suffices, so
the wrapper below computes exactly the regex substitution. -/
def removeThinkGo (fuel : Nat) (s : List Char) : List Char :=
  match fuel with
  | 0 => s
  | fuel + 1 =>
    match splitFirst "<think>".data s with
    | none => s
    | some (pre, rest) =>
      match splitFirst "</think>".data rest with
      | none => s
      | some (_, tail) => pre ++ removeThinkGo fuel tail

/-- Models `re.sub(r'<think>.*?</think>', '', s, flags=re.DOTALL)` from
`generator.py`: repeatedly removes the leftmost shortest
`<think>…</think>` block. -/
def removeThink (s : List Char) : List Char :=
  removeThinkGo s.length s

/-- Fuel-driven worker for `replaceAll`; fuel `s.length` suffices because a
non-empty pattern occurrence consumes at least one character. -/
def replaceAllGo (pat : List Char) (fuel : Nat) (s : List Char) : List Char :=
  match fuel with
  | 0 => s
  | fuel + 1 =>
    match splitFirst pat s with
    | none => s
    | some (pre, post) => pre ++ replaceAllGo pat fuel post

/-- Models Python `s.replace(pat, '')`: removes every non-overlapping
occurrence of `pat`, scanning left to right. -/
def replaceAll (s pat : List Char) : List Char :=
  replaceAllGo pat s.length s

/-- Models the response-cleaning steps of `TopicGenerator.generate_topics`
(`generator.py` lines 153–156): strip `<think>…</think>` blocks (followed by
`strip()`) when a `<think>` tag is present, then remove ` ```json ` and
` ``` ` fence markers and strip surrounding whitespace. -/
def cleanContent (raw : String) : String :=
  let r1 :=
    if containsSub raw.data "<think>".data then pyStrip (removeThink raw.data)
    else raw.data
  String.mk (pyStrip (replaceAll (replaceAll r1 "```json".data) "```".data))

/-! ### Data model (`generator.py`, `evaluator.py`, `translator.py`) -/

/-- One entry of `ResearchTopic.related_papers`, as built by the
related-paper mapping in `generate_topics` (`generator.py` lines 181–186).
`year = none` models the `"N/A"` default used when the metadata has no
year. -/
structure RelatedPaper where
  title : String
  authors : String
  year : Option Int
  url : String
deriving DecidableEq, Repr

/-- The `ResearchTopic` Pydantic model of `generator.py`. -/
structure ResearchTopic where
  title : String
  background : String
  necessity : String
  table_of_contents : List String
  expected_effects : String
  related_papers : List RelatedPaper := []
deriving DecidableEq, Repr

/-- The `TopicList` Pydantic model of `generator.py`. -/
structure TopicList where
  topics : List ResearchTopic
deriving DecidableEq, Repr

/-- The `EvaluationResult` Pydantic model of `evaluator.py`. -/
structure EvaluationResult where
  originality_score : Int
  feasibility_score : Int
  impact_score : Int
  total_score : Int
  reasoning : String
deriving DecidableEq, Repr

/-- The `EvaluatedTopic` Pydantic model of `evaluator.py`. -/
structure EvaluatedTopic where
  topic : ResearchTopic
  evaluation : EvaluationResult
deriving DecidableEq, Repr

/-- The `TranslatedContent` Pydantic model of `translator.py`. -/
structure TranslatedContent where
  title : String
  background : String
  necessity : String
  table_of_contents : List String
  expected_effects : String
  reasoning : String
deriving DecidableEq, Repr

/-- Metadata attached to one vector-store document, as written by
`PaperCollector.create_vector_db` and read defensively (with `dict.get`
defaults) by `TopicGenerator.generate_topics`.  `none` models an absent
key. -/
structure DocMeta where
  title : Option String
  authors : Option String
  year : Option Int
  url : Option String
deriving DecidableEq, Repr

/-- One vector-store document: free text plus metadata. -/
structure Doc where
  page_content : String
  metadata : DocMeta
deriving DecidableEq, Repr

/-- One authorship entry of an OpenAlex API result (`fetch_papers`):
an optional author display name, and the institution display names of the
authorship (each possibly missing). -/
structure Authorship where
  author : Option String
  institutions : List (Option String)
deriving DecidableEq, Repr

/-- One raw OpenAlex API result, with the fields read by `fetch_papers`. -/
structure RawResult where
  title : Option String
  abstract_inverted_index : Option (List (String × List Nat))
  url : Option String
  publication_year : Option Int
  authorships : List Authorship
deriving DecidableEq, Repr

/-- One paper record as appended to the `papers` list by `fetch_papers`. -/
structure Paper where
  title : String
  abstract : String
  url : Option String
  publication_year : Option Int
  authors : List String
  institutions : List String
deriving DecidableEq, Repr

/-! ### Paper collector (`agents/collector.py`) -/

/-- Default for `getattr(config, 'AUTHORS_LIMIT', 3)`: `config.py` defines no
`AUTHORS_LIMIT`, so the default 3 applies. -/
def AUTHORS_LIMIT : Nat := 3

/-- Default for `getattr(config, 'INSTITUTIONS_LIMIT', 3)`: `config.py`
defines no `INSTITUTIONS_LIMIT`, so the default 3 applies. -/
def INSTITUTIONS_LIMIT : Nat := 3

/-- The `(pos, word)` pairs collected by `_reconstruct_abstract` from the
inverted index (iterating words in dict insertion order, positions in list
order). -/
def wordPositions (l : List (String × List Nat)) : List (Nat × String) :=
  l.flatMap (fun wp => wp.2.map (fun p => (p, wp.1)))

/-- Python's comparison order on `(pos, word)` tuples, as used by
`word_positions.sort()`: lexicographic on the position, then the word. -/
def posWordR (a b : Nat × String) : Prop :=
  a.1 < b.1 ∨ (a.1 = b.1 ∧ a.2 ≤ b.2)

instance : DecidableRel posWordR := fun a b =>
  inferInstanceAs (Decidable (a.1 < b.1 ∨ (a.1 = b.1 ∧ a.2 ≤ b.2)))

instance : IsTotal (Nat × String) posWordR where
  total a b := by
    rcases Nat.lt_trichotomy a.1 b.1 with h | h | h
    · exact Or.inl (Or.inl h)
    · rcases le_total a.2 b.2 with h2 | h2
      · exact Or.inl (Or.inr ⟨h, h2⟩)
      · exact Or.inr (Or.inr ⟨h.symm, h2⟩)
    · exact Or.inr (Or.inl h)

instance : IsTrans (Nat × String) posWordR where
  trans a b c hab hbc := by
    rcases hab with h1 | ⟨e1, w1⟩
    · rcases hbc with h2 | ⟨e2, _⟩
      · exact Or.inl (h1.trans h2)
      · exact Or.inl (e2 ▸ h1)
    · rcases hbc with h2 | ⟨e2, w2⟩
      · exact Or.inl (e1 ▸ h2)
      · exact Or.inr ⟨e1.trans e2, w1.trans w2⟩

/-- Models `PaperCollector._reconstruct_abstract` (`collector.py` lines
101–107): an absent/`None` or empty (falsy) inverted index yields `""`;
otherwise all `(pos, word)` pairs are collected, sorted, and the words are
joined with single spaces. -/
def reconstructAbstract : Option (List (String × List Nat)) → String
  | none => ""
  | some l =>
    if l.isEmpty then ""
    else String.intercalate " "
      ((List.insertionSort posWordR (wordPositions l)).map Prod.snd)

/-- One step of the institution-collection loop of `fetch_papers`
(`collector.py` lines 56–59): keep a truthy, not-yet-seen display name,
appending it at the end. -/
def instStep (is_ : List String) (oi : Option String) : List String :=
  match oi with
  | some n => if n ≠ "" ∧ n ∉ is_ then is_ ++ [n] else is_
  | none => is_

/-- One step of the authorship loop of `fetch_papers` (`collector.py` lines
51–59): append a truthy author display name, and fold the authorship's
institutions through `instStep`. -/
def authStep (acc : List String × List String) (a : Authorship) :
    List String × List String :=
  (match a.author with
   | some n => if n ≠ "" then acc.1 ++ [n] else acc.1
   | none => acc.1,
   a.institutions.foldl instStep acc.2)

/-- Models the author/institution collection of `fetch_papers`
(`collector.py` lines 47–61): only the first `aLimit` authorships are
scanned, then the deduplicated institution list is capped at `iLimit`. -/
def collectAuthorsInsts (auths : List Authorship) (aLimit iLimit : Nat) :
    List String × List String :=
  let acc := (auths.take aLimit).foldl authStep ([], [])
  (acc.1, acc.2.take iLimit)

/-- Models the per-result body of `fetch_papers` (`collector.py` lines
42–71): reconstruct the abstract, collect authors and institutions, and
keep the record only when both title and abstract are truthy. -/
def processResult (aLimit iLimit : Nat) (r : RawResult) : Option Paper :=
  let abstract := reconstructAbstract r.abstract_inverted_index
  let acc := collectAuthorsInsts r.authorships aLimit iLimit
  match r.title with
  | none => none
  | some t =>
    if t ≠ "" ∧ abstract ≠ "" then
      some ⟨t, abstract, r.url, r.publication_year, acc.1, acc.2⟩
    else none

/-- Models the `papers` list built by `fetch_papers` from the API results:
results failing the title/abstract truthiness check are silently dropped. -/
def fetchPapers (results : List RawResult) (aLimit iLimit : Nat) :
    List Paper :=
  results.filterMap (processResult aLimit iLimit)

/-- The separator used by `save_papers_to_csv` (`collector.py` lines 94–95)
to serialize author and institution lists: `'; '.join(...)`. -/
def sepChars : List Char := [';', ' ']

/-- Models `'; '.join(names)` from `save_papers_to_csv`. -/
def joinAuthors (names : List (List Char)) : List Char :=
  List.intercalate sepChars names

/-- Models Python `s.split('; ')`, the recovery operation named by the
spec's CSV round-trip property: split on every non-overlapping occurrence
of `'; '`, scanning left to right. -/
def splitSep : List Char → List (List Char)
  | [] => [[]]
  | [c] => [[c]]
  | c :: d :: cs =>
    if c = ';' ∧ d = ' ' then [] :: splitSep cs
    else
      match splitSep (d :: cs) with
      | [] => [[c]]
      | h :: t => (c :: h) :: t

/-! #### Vector-store batch insertion (`create_vector_db`) -/

/-- Observable actions of the batch-insertion loop of `create_vector_db`:
an `add_documents` attempt (with its 0-based attempt index), a
`time.sleep` with its duration in seconds, and the skip marker printed when
a batch has exhausted its retries. -/
inductive InsertEvent where
  | attempt (i : Nat)
  | sleep (secs : Nat)
  | skip
deriving DecidableEq, Repr

/-- `max_retries` of `create_vector_db` (`collector.py` line 152). -/
def maxRetries : Nat := 3

/-- Models the retry loop `for attempt in range(max_retries)` of
`create_vector_db` (`collector.py` lines 153–162) for one batch.
`outcome i` tells whether the `add_documents` call of attempt `i`
succeeds; `remaining` counts the loop iterations still available and `idx`
is the current attempt index.  Returns the event trace and whether the
batch was marked skipped. -/
def attemptLoop (outcome : Nat → Bool) (idx : Nat) :
    Nat → List InsertEvent × Bool
  | 0 => ([], false)
  | remaining + 1 =>
    if outcome idx then ([InsertEvent.attempt idx], false)
    else if remaining = 0 then
      ([InsertEvent.attempt idx, InsertEvent.skip], true)
    else
      let r := attemptLoop outcome (idx + 1) remaining
      (InsertEvent.attempt idx :: InsertEvent.sleep 5 :: r.1, r.2)

/-- The retry handling of `create_vector_db` for one batch: up to
`maxRetries` attempts starting at attempt index 0. -/
def processBatch (outcome : Nat → Bool) : List InsertEvent × Bool :=
  attemptLoop outcome 0 maxRetries

/-- Tests whether an event is an `add_documents` attempt. -/
def isAttempt : InsertEvent → Bool
  | InsertEvent.attempt _ => true
  | _ => false

/-- The number of `add_documents` attempts recorded in an event trace. -/
def countAttempts (evs : List InsertEvent) : Nat :=
  evs.countP isAttempt

/-- Fuel-driven worker for `chunks`; fuel `l.length` suffices whenever
`bs ≥ 1`, because each step consumes at least one element. -/
def chunksGo (bs : Nat) : Nat → List α → List (List α)
  | 0, _ => []
  | _, [] => []
  | fuel + 1, l => l.take bs :: chunksGo bs fuel (l.drop bs)

/-- Models the slicing loop `for i in range(0, total_docs, batch_size)` of
`create_vector_db` (`collector.py` lines 148–149): the successive slices
`documents[i : i + batch_size]`. -/
def chunks (bs : Nat) (l : List α) : List (List α) :=
  chunksGo bs l.length l

/-- Models the batch-insertion loop of `create_vector_db` (`collector.py`
lines 148–162).  `outcome b i` tells whether attempt `i` on batch `b`
succeeds.  Every batch is processed in order — a skipped batch does not
abort the loop — and each batch is paired with its event trace and skip
flag. -/
def createVectorDb (docs : List Doc) (batchSize : Nat)
    (outcome : Nat → Nat → Bool) : List (List Doc × List InsertEvent × Bool) :=
  (chunks batchSize docs).mapIdx (fun b batch => (batch, processBatch (outcome b)))

/-! ### Topic generator (`agents/generator.py`) -/

/-- The sort key `lambda x: x.get('year', 0)` of `generate_topics`
(`generator.py` line 67): a missing year counts as zero. -/
def yearKey (d : DocMeta) : Int :=
  d.year.getD 0

/-- The descending-by-year order used by
`sorted(all_docs_metadata, key=..., reverse=True)`: `a` precedes `b` when
`a`'s year key is at least `b`'s. -/
def docYearR (a b : DocMeta) : Prop :=
  yearKey b ≤ yearKey a

instance : DecidableRel docYearR := fun a b =>
  inferInstanceAs (Decidable (yearKey b ≤ yearKey a))

instance : IsTotal DocMeta docYearR where
  total a b := le_total (yearKey b) (yearKey a)

instance : IsTrans DocMeta docYearR where
  trans _ _ _ hab hbc := le_trans hbc hab

/-- The digest line `f"- [{doc.get('year', 'N/A')}] {doc.get('title',
'Unknown Title')}"` (`generator.py` lines 72–75). -/
def fmtLatest (d : DocMeta) : String :=
  "- [" ++ (match d.year with | some y => toString y | none => "N/A") ++ "] "
    ++ d.title.getD "Unknown Title"

/-- Models the "state of the art" digest of `generate_topics` (`generator.py`
lines 61–77): sort all retrieved documents' metadata by publication year
descending (missing year as zero), keep the 5 most recent, format each,
and join with newlines. -/
def latestPapersDigest (metas : List DocMeta) : String :=
  String.intercalate "\n"
    (((List.insertionSort docYearR metas).take 5).map fmtLatest)

/-- The literal `EXAMPLE_JSON_STRUCTURE` of `generator.py` (lines 23–40). -/
def exampleJsonStructure : String :=
  "\n\x7b\n  \"topics\": [\n    \x7b\n      \"title\": \"Applying AI to Patent Claim Analysis\",\n"
  ++ "      \"background\": \"Current patent analysis relies heavily on manual expert review...\",\n"
  ++ "      \"necessity\": \"Manual review is time-consuming and prone to human error...\",\n"
  ++ "      \"table_of_contents\": [\n        \"1. Introduction to Patent Claims\",\n"
  ++ "        \"2. NLP Techniques for Legal Text\",\n        \"3. System Architecture\",\n"
  ++ "        \"4. Evaluation Metrics\"\n      ],\n"
  ++ "      \"expected_effects\": \"Reduce analysis time by 50% and increase accuracy...\"\n"
  ++ "    \x7d\n  ]\n\x7d\n"

/-- The prompt template of `generate_topics` (`generator.py` lines 85–130)
up to the `num_topics` placeholder. -/
def promptSeg1 : String :=
  "\n        You are a Senior Principal Investigator (PI) at a top-tier research institute.\n"
  ++ "        Your goal is to propose "

/-- Template text between the `num_topics` and `keyword` placeholders. -/
def promptSeg2 : String :=
  " groundbreaking research agendas related to \""

/-- Template text between the `keyword` and `latest_papers` placeholders. -/
def promptSeg3 : String :=
  "\" that could be published in top-tier journals (e.g., Nature, Science, AAAI, NeurIPS).\n"
  ++ "\n        --- 1. STATE OF THE ART (SOTA) ANALYSIS ---\n"
  ++ "        The following titles represent the most recent developments (latest papers). \n"
  ++ "        Analyze them to understand the current research frontier:\n        "

/-- Template text between the `latest_papers` and `context` placeholders. -/
def promptSeg4 : String :=
  "\n        \n        --- 2. KNOWLEDGE BASE (RAG Context) ---\n"
  ++ "        Use these specific details to ground your proposals in reality and technical feasibility:\n        "

/-- Template text between the `context` and `example_json` placeholders. -/
def promptSeg5 : String :=
  "\n        \n        --- 3. IDEATION FRAMEWORK (Chain of Thought) ---\n"
  ++ "        To generate the topics, you MUST first engage in a deep reasoning process using the <think> tag.\n"
  ++ "        Inside the <think> block, follow this \"Critic -> Solution\" logic:\n"
  ++ "        \n        <think>\n        1. CRITIC (Identify Limitations):\n"
  ++ "           - Critically analyze the provided \"Latest Papers\" and \"Context\".\n"
  ++ "           - Explicitly state what is MISSING, FLAWED, or OUTDATED in the current research.\n"
  ++ "           - Why are existing approaches insufficient? (e.g., \"Current methods rely on X which is computationally expensive,\" or \"They fail to address Y scenario\").\n"
  ++ "           \n        2. SOLUTION (Propose Alternatives):\n"
  ++ "           - For each limitation identified, propose a specific, novel alternative.\n"
  ++ "           - How can we overcome the identified flaws? (e.g., \"Instead of X, we can use Z to reduce complexity,\" or \"Integrate A and B to solve Y\").\n"
  ++ "           - Verify if this solution is truly \"disruptive\" and not just an incremental improvement.\n"
  ++ "        </think>\n        \n        --- 4. STRICT CONSTRAINTS ---\n"
  ++ "        - Avoid \"incremental\" improvements (e.g., \"Using X for Y\"). Focus on \"disruptive\" ideas.\n"
  ++ "        - Ensure \"Necessity\" clearly argues why current methods fail (based on your <think> analysis).\n"
  ++ "        - Ensure \"Expected Effects\" includes quantitative or specific qualitative breakthroughs (e.g., \"Reducing complexity from O(N^2) to O(N)\").\n"
  ++ "        \n        --- 5. OUTPUT FORMAT ---\n"
  ++ "        Provide ONLY the JSON object. Do NOT include markdown formatting (```json), explanations, or schema definitions ($defs).\n"
  ++ "        The <think> block should come BEFORE the JSON output, but the final response should be parsed to extract the JSON.\n"
  ++ "        (Note: The system will extract the JSON, so you can output the <think> block first, followed by the JSON).\n"
  ++ "        \n        Follow the structure of the EXAMPLE below exactly.\n"
  ++ "\n        EXAMPLE JSON OUTPUT:\n        "

/-- Template text after the `example_json` placeholder. -/
def promptSeg6 : String :=
  "\n\n        YOUR PROPOSAL:\n        "

/-- Models the formatted prompt of `generate_topics`: the template with
the `num_topics`, `keyword`, `latest_papers`, `context` and `example_json`
placeholders substituted, in template order. -/
def promptText (numTopics : Nat) (keyword context latestPapers : String) :
    String :=
  promptSeg1 ++ toString numTopics ++ promptSeg2 ++ keyword ++ promptSeg3
    ++ latestPapers ++ promptSeg4 ++ context ++ promptSeg5
    ++ exampleJsonStructure ++ promptSeg6

/-- Models the retrieval step of `generate_topics` (`generator.py` lines
55–82).  `retr = some docs` is a successful `retriever.invoke(keyword)`;
`retr = none` is any exception in the `try` block, which degrades to the
fixed fallback context and digest. -/
def retrievalContext (retr : Option (List Doc)) : String × String :=
  match retr with
  | some docs =>
    (String.intercalate "\n\n" (docs.map (·.page_content)),
     latestPapersDigest (docs.map (·.metadata)))
  | none => ("No specific context provided.", "No latest papers found.")

/-- The prompt sent to the model by `generate_topics` for a given retrieval
outcome, keyword and topic count. -/
def promptFor (retr : Option (List Doc)) (keyword : String)
    (numTopics : Nat) : String :=
  let rc := retrievalContext retr
  promptText numTopics keyword rc.1 rc.2

/-- One related-paper record built from document metadata by the mapping
loop of `generate_topics` (`generator.py` lines 181–186), with the
`dict.get` defaults of the source. -/
def docToRelated (d : DocMeta) : RelatedPaper :=
  { title := d.title.getD "Unknown Title",
    authors := d.authors.getD "Unknown Authors",
    year := d.year,
    url := d.url.getD "" }

/-- Models the per-topic related-paper mapping of `generate_topics`
(`generator.py` lines 176–189).  `search t.title = none` is a failed
`similarity_search`, degraded to an empty related-papers list. -/
def mapRelated (search : String → Option (List DocMeta))
    (t : ResearchTopic) : ResearchTopic :=
  match search t.title with
  | none => { t with related_papers := [] }
  | some ds => { t with related_papers := ds.map docToRelated }

/-- Models `generate_topics` from the model response onward (`generator.py`
lines 150–191): clean the raw content, parse it against the topic-list
schema (`parse` models `json.loads` + `TopicList(**json_data)`; `none` is
a `JSONDecodeError` or a validation failure, both of which return `[]`),
then attach related papers per topic. -/
def generateFromResponse (parse : String → Option TopicList)
    (search : String → Option (List DocMeta)) (raw : String) :
    List ResearchTopic :=
  match parse (cleanContent raw) with
  | none => []
  | some tl => tl.topics.map (mapRelated search)

/-- Models `TopicGenerator.generate_topics` end to end: retrieval (with
fallback), prompt assembly, the model call (`llm` returns the raw response
content, or `none` for an exception — caught by the outer `try`, which
returns `[]`), cleaning, parsing and related-paper mapping. -/
def generateTopics (retr : Option (List Doc)) (llm : String → Option String)
    (parse : String → Option TopicList)
    (search : String → Option (List DocMeta))
    (keyword : String) (numTopics : Nat) : List ResearchTopic :=
  match llm (promptFor retr keyword numTopics) with
  | none => []
  | some raw => generateFromResponse parse search raw

/-! ### Topic evaluator (`agents/evaluator.py`) -/

/-- Models the total-score correction of `evaluate_topics` (`evaluator.py`
lines 74–75): if the model returned a zero total, recompute it as the sum
of the three criterion scores; otherwise keep the returned record
unchanged. -/
def fixTotal (e : EvaluationResult) : EvaluationResult :=
  if e.total_score = 0 then
    { e with total_score :=
        e.originality_score + e.feasibility_score + e.impact_score }
  else e

/-- The fixed low-score record substituted on a per-topic evaluation
failure (`evaluator.py` lines 81–84). -/
def defaultEval : EvaluationResult :=
  { originality_score := 1, feasibility_score := 1, impact_score := 1,
    total_score := 3, reasoning := "Evaluation failed." }

/-- Models one iteration of the evaluation loop (`evaluator.py` lines
63–85): `ev t` is the model's structured output for topic `t`, `none`
standing for any exception, which substitutes `defaultEval`. -/
def evalStep (ev : ResearchTopic → Option EvaluationResult)
    (t : ResearchTopic) : EvaluatedTopic :=
  match ev t with
  | some e => { topic := t, evaluation := fixTotal e }
  | none => { topic := t, evaluation := defaultEval }

/-- The order used by `evaluated_topics.sort(key=lambda x:
x.evaluation.total_score, reverse=True)`: `a` precedes `b` when `a`'s
total is at least `b`'s. -/
def evalR (a b : EvaluatedTopic) : Prop :=
  b.evaluation.total_score ≤ a.evaluation.total_score

instance : DecidableRel evalR := fun a b =>
  inferInstanceAs (Decidable (b.evaluation.total_score ≤ a.evaluation.total_score))

instance : IsTotal EvaluatedTopic evalR where
  total a b := le_total b.evaluation.total_score a.evaluation.total_score

instance : IsTrans EvaluatedTopic evalR where
  trans _ _ _ hab hbc := le_trans hbc hab

/-- Models `TopicEvaluator.evaluate_topics` (`evaluator.py` lines 32–91):
evaluate each topic in input order (with the zero-total correction and the
failure fallback), then stably sort by total score, descending. -/
def evaluateTopics (ev : ResearchTopic → Option EvaluationResult)
    (topics : List ResearchTopic) : List EvaluatedTopic :=
  List.insertionSort evalR (topics.map (evalStep ev))

/-! ### Topic translator (`agents/translator.py`) -/

/-- Models one iteration of the translation loop of `translate_topics`
(`translator.py` lines 56–95).  `tr` is the model's translated content for
the item (`none` for any exception): on success, the textual fields are
replaced while the numeric scores and the related-papers list are copied
from the original; on failure, the original item is re-emitted unchanged. -/
def translateOne (item : EvaluatedTopic) (tr : Option TranslatedContent) :
    EvaluatedTopic :=
  match tr with
  | none => item
  | some t =>
    { topic :=
        { title := t.title, background := t.background,
          necessity := t.necessity,
          table_of_contents := t.table_of_contents,
          expected_effects := t.expected_effects,
          related_papers := item.topic.related_papers },
      evaluation :=
        { originality_score := item.evaluation.originality_score,
          feasibility_score := item.evaluation.feasibility_score,
          impact_score := item.evaluation.impact_score,
          total_score := item.evaluation.total_score,
          reasoning := t.reasoning } }

/-- Models `TopicTranslator.translate_topics`: one model call per evaluated
topic, each handled by `translateOne`. -/
def translateTopics (tr : EvaluatedTopic → Option TranslatedContent)
    (items : List EvaluatedTopic) : List EvaluatedTopic :=
  items.map (fun it => translateOne it (tr it))

/-- The fields of an evaluated topic that translation must not change: the
three criterion scores, the total score, and the related-papers list. -/
def numericPart (x : EvaluatedTopic) :
    Int × Int × Int × Int × List RelatedPaper :=
  (x.evaluation.originality_score, x.evaluation.feasibility_score,
   x.evaluation.impact_score, x.evaluation.total_score,
   x.topic.related_papers)

/-! ## Theorems -/

/-- C2: `evaluate_topics` replaces the total score with the sum of the three
criterion scores exactly when the model's returned total is zero; any
nonzero returned total is kept (with the whole record unchanged) even when
it disagrees with the component sum.  In particular scores `(2,3,4)` with
reported total `0` yield total `9`, and with reported total `7` yield
`7`. -/
theorem evaluator_total_policy :
    (∀ (ev : ResearchTopic → Option EvaluationResult) (t : ResearchTopic)
        (e : EvaluationResult),
        ev t = some e → (evalStep ev t).evaluation = fixTotal e) ∧
    (∀ e : EvaluationResult, e.total_score = 0 →
        (fixTotal e).total_score =
          e.originality_score + e.feasibility_score + e.impact_score) ∧
    (∀ e : EvaluationResult, e.total_score ≠ 0 → fixTotal e = e) ∧
    (fixTotal ⟨2, 3, 4, 0, "r"⟩).total_score = 9 ∧
    (fixTotal ⟨2, 3, 4, 7, "r"⟩).total_score = 7 := by
  refine ⟨?_, ?_, ?_, by decide, by decide⟩
  · intro ev t e h
    unfold evalStep
    rw [h]
  · intro e h
    unfold fixTotal
    rw [if_pos h]
  · intro e h
    unfold fixTotal
    rw [if_neg h]

/-- Witness for C2 at concrete inputs. -/
theorem evaluator_total_policy_witness :
    ((fun _ : ResearchTopic => some (⟨2, 3, 4, 0, "r"⟩ : EvaluationResult))
        ⟨"t", "b", "n", [], "e", []⟩ = some ⟨2, 3, 4, 0, "r"⟩) ∧
    (evalStep (fun _ => some ⟨2, 3, 4, 0, "r"⟩)
        ⟨"t", "b", "n", [], "e", []⟩).evaluation = fixTotal ⟨2, 3, 4, 0, "r"⟩ ∧
    ((⟨2, 3, 4, 0, "r"⟩ : EvaluationResult).total_score = 0 ∧
      (fixTotal ⟨2, 3, 4, 0, "r"⟩).total_score = 2 + 3 + 4) ∧
    ((⟨2, 3, 4, 7, "r"⟩ : EvaluationResult).total_score ≠ 0 ∧
      fixTotal ⟨2, 3, 4, 7, "r"⟩ = ⟨2, 3, 4, 7, "r"⟩) :=
  ⟨rfl,
   evaluator_total_policy.1 _ _ _ rfl,
   ⟨rfl, evaluator_total_policy.2.1 _ rfl⟩,
   ⟨by decide, evaluator_total_policy.2.2.1 _ (by decide)⟩⟩

/-- C4: whenever the model response's cleaned content fails JSON parsing or
schema validation (`parse … = none` models both failure modes of
`generator.py` lines 159–169), `generate_topics` returns the empty list;
the embedding is a total function, so no exception reaches the caller —
both `except` arms return `[]`. -/
theorem generate_topics_parse_failure
    (retr : Option (List Doc)) (llm : String → Option String)
    (parse : String → Option TopicList)
    (search : String → Option (List DocMeta))
    (keyword : String) (numTopics : Nat) (raw : String)
    (hllm : llm (promptFor retr keyword numTopics) = some raw)
    (hparse : parse (cleanContent raw) = none) :
    generateTopics retr llm parse search keyword numTopics = [] := by
  unfold generateTopics generateFromResponse
  rw [hllm]
  simp only [hparse]

/-- Witness for C4 at concrete oracles. -/
theorem generate_topics_parse_failure_witness :
    ((fun _ : String => some "oops") (promptFor none "k" 5) = some "oops") ∧
    ((fun _ : String => (none : Option TopicList)) (cleanContent "oops")
        = none) ∧
    generateTopics none (fun _ => some "oops") (fun _ => none)
      (fun _ => none) "k" 5 = [] :=
  ⟨rfl, rfl,
   generate_topics_parse_failure none (fun _ => some "oops") (fun _ => none)
     (fun _ => none) "k" 5 "oops" rfl rfl⟩

/-- C6: translation changes only textual fields — for every oracle and
input list, the three criterion scores, the total score and the
related-papers list of each output entry coincide with those of the
corresponding input entry (the lists of `numericPart`s are equal, so no
entry is dropped or reordered), and a per-topic failure re-emits the
untranslated original entry unchanged. -/
theorem translate_topics_preserves_scores :
    ∀ (tr : EvaluatedTopic → Option TranslatedContent)
      (items : List EvaluatedTopic),
      (translateTopics tr items).map numericPart = items.map numericPart ∧
      ∀ item : EvaluatedTopic, translateOne item none = item := by
  intro tr items
  refine ⟨?_, fun _ => rfl⟩
  unfold translateTopics
  rw [List.map_map]
  apply List.map_congr_left
  intro x _
  cases htr : tr x with
  | none => simp [translateOne, htr]
  | some t => simp [translateOne, htr, numericPart]

/-- C10: an absent/`None` or empty abstract inverted index reconstructs to
the empty string, and — the empty string being falsy — the corresponding
API result is silently dropped from the paper list built by
`fetch_papers`, even when its title is present. -/
theorem empty_inverted_index_dropped :
    ∀ oi : Option (List (String × List Nat)), oi = none ∨ oi = some [] →
      reconstructAbstract oi = "" ∧
      ∀ (r : RawResult) (aLimit iLimit : Nat),
        r.abstract_inverted_index = oi →
        processResult aLimit iLimit r = none ∧
        ∀ pre post : List RawResult,
          fetchPapers (pre ++ r :: post) aLimit iLimit
            = fetchPapers (pre ++ post) aLimit iLimit := by
  intro oi hoi
  have habs : reconstructAbstract oi = "" := by
    rcases hoi with rfl | rfl <;> rfl
  refine ⟨habs, ?_⟩
  intro r aL iL hr
  have hnone : processResult aL iL r = none := by
    unfold processResult
    rw [hr, habs]
    cases ht : r.title with
    | none => rfl
    | some t => simp
  refine ⟨hnone, ?_⟩
  intro pre post
  unfold fetchPapers
  rw [List.filterMap_append, List.filterMap_append, List.filterMap_cons,
    hnone]

/-- Witness for C10 at a concrete result with a present title and an absent
inverted index. -/
theorem empty_inverted_index_dropped_witness :
    reconstructAbstract none = "" ∧
    processResult 3 3 ⟨some "T", none, none, none, []⟩ = none ∧
    fetchPapers ([] ++ (⟨some "T", none, none, none, []⟩ : RawResult) :: []) 3 3
      = fetchPapers ([] ++ []) 3 3 :=
  ⟨(empty_inverted_index_dropped none (Or.inl rfl)).1,
   ((empty_inverted_index_dropped none (Or.inl rfl)).2
      ⟨some "T", none, none, none, []⟩ 3 3 rfl).1,
   ((empty_inverted_index_dropped none (Or.inl rfl)).2
      ⟨some "T", none, none, none, []⟩ 3 3 rfl).2 [] []⟩

/-- Every run of the retry loop makes at most `remaining` attempts. -/
theorem countAttempts_attemptLoop (outcome : Nat → Bool) :
    ∀ (remaining idx : Nat),
      countAttempts (attemptLoop outcome idx remaining).1 ≤ remaining := by
  intro remaining
  induction remaining with
  | zero => intro idx; simp [attemptLoop, countAttempts]
  | succ n ih =>
    intro idx
    unfold attemptLoop
    by_cases h : outcome idx
    · simp [h, countAttempts, isAttempt]
    · by_cases hn : n = 0
      · simp [h, hn, countAttempts, isAttempt]
      · have hih := ih (idx + 1)
        simp only [h, hn, Bool.false_eq_true, if_false]
        simp only [countAttempts, List.countP_cons, isAttempt] at hih ⊢
        simp only [if_true, if_false, Bool.false_eq_true, reduceIte]
        omega

/-- C8: each batch insertion is attempted at most 3 times with a 5-second
pause between consecutive attempts; a batch failing twice and succeeding
on the third attempt is not marked skipped, a batch failing all 3 attempts
is marked skipped, and the loop still processes every batch (one result
per batch, in order), never aborting the run. -/
theorem create_vector_db_retry :
    (∀ outcome : Nat → Bool,
        countAttempts (processBatch outcome).1 ≤ 3) ∧
    (∀ outcome : Nat → Bool,
        outcome 0 = false → outcome 1 = false → outcome 2 = true →
        processBatch outcome =
          ([InsertEvent.attempt 0, InsertEvent.sleep 5, InsertEvent.attempt 1,
            InsertEvent.sleep 5, InsertEvent.attempt 2], false)) ∧
    (∀ outcome : Nat → Bool,
        outcome 0 = false → outcome 1 = false → outcome 2 = false →
        processBatch outcome =
          ([InsertEvent.attempt 0, InsertEvent.sleep 5, InsertEvent.attempt 1,
            InsertEvent.sleep 5, InsertEvent.attempt 2, InsertEvent.skip],
           true)) ∧
    (∀ (docs : List Doc) (batchSize : Nat) (outcome : Nat → Nat → Bool),
        (createVectorDb docs batchSize outcome).length
          = (chunks batchSize docs).length) := by
  refine ⟨?_, ?_, ?_, ?_⟩
  · intro outcome
    exact countAttempts_attemptLoop outcome 3 0
  · intro outcome h0 h1 h2
    unfold processBatch maxRetries
    show attemptLoop outcome 0 (2 + 1) = _
    rw [attemptLoop]
    simp only [h0, Bool.false_eq_true, if_false]
    show (_ :: _ :: (attemptLoop outcome 1 (1 + 1)).1, _) = _
    rw [attemptLoop]
    simp only [h1, Bool.false_eq_true, if_false]
    show (_ :: _ :: _ :: _ :: (attemptLoop outcome 2 (0 + 1)).1, _) = _
    rw [attemptLoop]
    simp [h2]
  · intro outcome h0 h1 h2
    unfold processBatch maxRetries
    show attemptLoop outcome 0 (2 + 1) = _
    rw [attemptLoop]
    simp only [h0, Bool.false_eq_true, if_false]
    show (_ :: _ :: (attemptLoop outcome 1 (1 + 1)).1, _) = _
    rw [attemptLoop]
    simp only [h1, Bool.false_eq_true, if_false]
    show (_ :: _ :: _ :: _ :: (attemptLoop outcome 2 (0 + 1)).1, _) = _
    rw [attemptLoop]
    simp [h2]
  · intro docs batchSize outcome
    unfold createVectorDb
    simp

/-- Witness for C8 at concrete outcome functions. -/
theorem create_vector_db_retry_witness :
    ((fun i => decide (i = 2)) 0 = false ∧ (fun i => decide (i = 2)) 1 = false ∧
      (fun i => decide (i = 2)) 2 = true ∧
      processBatch (fun i => decide (i = 2)) =
        ([InsertEvent.attempt 0, InsertEvent.sleep 5, InsertEvent.attempt 1,
          InsertEvent.sleep 5, InsertEvent.attempt 2], false)) ∧
    ((fun _ : Nat => false) 0 = false ∧
      processBatch (fun _ => false) =
        ([InsertEvent.attempt 0, InsertEvent.sleep 5, InsertEvent.attempt 1,
          InsertEvent.sleep 5, InsertEvent.attempt 2, InsertEvent.skip],
         true)) ∧
    countAttempts (processBatch (fun _ => false)).1 ≤ 3 ∧
    (createVectorDb [⟨"c", ⟨none, none, none, none⟩⟩] 1 (fun _ _ => false)).length
      = (chunks 1 [(⟨"c", ⟨none, none, none, none⟩⟩ : Doc)]).length :=
  ⟨⟨rfl, rfl, rfl,
    create_vector_db_retry.2.1 (fun i => decide (i = 2)) rfl rfl rfl⟩,
   ⟨rfl, create_vector_db_retry.2.2.1 (fun _ => false) rfl rfl rfl⟩,
   create_vector_db_retry.1 (fun _ => false),
   create_vector_db_retry.2.2.2 [⟨"c", ⟨none, none, none, none⟩⟩] 1
     (fun _ _ => false)⟩

/-- Any name in the institution fold comes from the initial accumulator or
from one of the folded institution entries. -/
theorem mem_instStep_fold :
    ∀ (l : List (Option String)) (init : List String) (n : String),
      n ∈ l.foldl instStep init → n ∈ init ∨ some n ∈ l := by
  intro l
  induction l with
  | nil => intro init n h; exact Or.inl h
  | cons oi l ih =>
    intro init n h
    rw [List.foldl_cons] at h
    rcases ih (instStep init oi) n h with hin | hmem
    · cases oi with
      | none => exact Or.inl hin
      | some m =>
        simp only [instStep] at hin
        by_cases hc : m ≠ "" ∧ m ∉ init
        · rw [if_pos hc] at hin
          rcases List.mem_append.mp hin with h1 | h2
          · exact Or.inl h1
          · have hnm : n = m := List.mem_singleton.mp h2
            subst hnm
            exact Or.inr (List.mem_cons_self _ _)
        · rw [if_neg hc] at hin
          exact Or.inl hin
    · exact Or.inr (List.mem_cons_of_mem _ hmem)

/-- Any name in the authorship fold comes from the initial accumulator or
from the institutions of one of the folded authorships. -/
theorem mem_authStep_fold :
    ∀ (auths : List Authorship) (init : List String × List String)
      (n : String),
      n ∈ (auths.foldl authStep init).2 →
      n ∈ init.2 ∨ ∃ a ∈ auths, some n ∈ a.institutions := by
  intro auths
  induction auths with
  | nil => intro init n h; exact Or.inl h
  | cons a as ih =>
    intro init n h
    rw [List.foldl_cons] at h
    rcases ih (authStep init a) n h with hin | ⟨b, hb, hmem⟩
    · rcases mem_instStep_fold a.institutions init.2 n hin with h1 | h2
      · exact Or.inl h1
      · exact Or.inr ⟨a, List.mem_cons_self _ _, h2⟩
    · exact Or.inr ⟨b, List.mem_cons_of_mem _ hb, hmem⟩

/-- C9: `fetch_papers` collects institution names only from the first
`aLimit` authorships (default `AUTHORS_LIMIT = 3`) before deduplicating
and capping at `iLimit`: an institution appearing only in a later
authorship never reaches the paper record, even when fewer than `iLimit`
institutions were collected. -/
theorem fetch_papers_institution_scope :
    ∀ (auths : List Authorship) (aLimit iLimit : Nat) (name : String),
      (∀ a ∈ auths.take aLimit, some name ∉ a.institutions) →
      name ∉ (collectAuthorsInsts auths aLimit iLimit).2 := by
  intro auths aLimit iLimit name hscope hmem
  simp only [collectAuthorsInsts] at hmem
  have h1 : name ∈ ((auths.take aLimit).foldl authStep ([], [])).2 :=
    List.take_subset _ _ hmem
  rcases mem_authStep_fold _ _ _ h1 with h2 | ⟨a, ha, hmem2⟩
  · simp at h2
  · exact hscope a ha hmem2

/-- Witness for C9: the institution `"X"` appears only in the fourth
authorship, and with the default caps (3, 3) it is absent from the
collected institutions even though only one institution was collected. -/
theorem fetch_papers_institution_scope_witness :
    (∀ a ∈ ([⟨some "A", []⟩, ⟨none, [some "I"]⟩, ⟨some "B", []⟩,
        ⟨none, [some "X"]⟩] : List Authorship).take AUTHORS_LIMIT,
      some "X" ∉ a.institutions) ∧
    "X" ∉ (collectAuthorsInsts
        [⟨some "A", []⟩, ⟨none, [some "I"]⟩, ⟨some "B", []⟩,
         ⟨none, [some "X"]⟩] AUTHORS_LIMIT INSTITUTIONS_LIMIT).2 :=
  ⟨by decide,
   fetch_papers_institution_scope _ AUTHORS_LIMIT INSTITUTIONS_LIMIT "X"
     (by decide)⟩

/-- C1: for every non-empty inverted index, `_reconstruct_abstract` returns
the words joined by single spaces in ascending position order: the output
is the space-join of the words of a permutation of all `(pos, word)`
occurrences whose positions are nondecreasing.  In particular the index
`{"a": [0, 2], "b": [1]}` yields exactly `"a b a"`. -/
theorem reconstruct_abstract_ascending :
    (∀ idx : List (String × List Nat), idx ≠ [] →
      ∃ ws : List (Nat × String),
        ws.Perm (wordPositions idx) ∧
        ws.Pairwise (fun a b => a.1 ≤ b.1) ∧
        reconstructAbstract (some idx) =
          String.intercalate " " (ws.map Prod.snd)) ∧
    reconstructAbstract (some [("a", [0, 2]), ("b", [1])]) = "a b a" := by
  constructor
  · intro idx hne
    refine ⟨List.insertionSort posWordR (wordPositions idx),
      List.perm_insertionSort _ _, ?_, ?_⟩
    · have hs : (List.insertionSort posWordR (wordPositions idx)).Pairwise
          posWordR :=
        List.sorted_insertionSort posWordR (wordPositions idx)
      refine List.Pairwise.imp ?_ hs
      intro a b hab
      rcases hab with h | ⟨h, _⟩
      · exact Nat.le_of_lt h
      · exact Nat.le_of_eq h
    · simp only [reconstructAbstract]
      rw [if_neg (by simp [hne])]
  · rfl

/-- Witness for C1 at a concrete non-empty index. -/
theorem reconstruct_abstract_ascending_witness :
    ([("x", [1]), ("y", [0])] : List (String × List Nat)) ≠ [] ∧
    ∃ ws : List (Nat × String),
      ws.Perm (wordPositions [("x", [1]), ("y", [0])]) ∧
      ws.Pairwise (fun a b => a.1 ≤ b.1) ∧
      reconstructAbstract (some [("x", [1]), ("y", [0])]) =
        String.intercalate " " (ws.map Prod.snd) :=
  ⟨by decide, reconstruct_abstract_ascending.1 _ (by decide)⟩

/-- C5: `generate_topics` sorts the retrieved documents' metadata by
publication year descending (a missing year counting as zero, stated by
the `yearKey` conjunct), the kept 5 are the most recent (every dropped
document's year key is at most every kept one's), the digest is the
formatted titles of those 5 joined by newlines, and the digest occurs
verbatim inside the assembled prompt. -/
theorem generator_latest_digest :
    ∀ metas : List DocMeta,
      (List.insertionSort docYearR metas).Perm metas ∧
      (List.insertionSort docYearR metas).Pairwise
        (fun a b => yearKey b ≤ yearKey a) ∧
      (∀ d : DocMeta, d.year = none → yearKey d = 0) ∧
      (∀ x ∈ (List.insertionSort docYearR metas).drop 5,
        ∀ y ∈ (List.insertionSort docYearR metas).take 5,
          yearKey x ≤ yearKey y) ∧
      latestPapersDigest metas =
        String.intercalate "\n"
          (((List.insertionSort docYearR metas).take 5).map fmtLatest) ∧
      ∀ (numTopics : Nat) (keyword context : String),
        ∃ pre post : String,
          promptText numTopics keyword context (latestPapersDigest metas)
            = pre ++ latestPapersDigest metas ++ post := by
  intro metas
  have hs : (List.insertionSort docYearR metas).Pairwise docYearR :=
    List.sorted_insertionSort docYearR metas
  refine ⟨List.perm_insertionSort _ _, hs,
    fun d hd => by simp [yearKey, hd], ?_, rfl, ?_⟩
  · intro x hx y hy
    have hsplit :
        (List.insertionSort docYearR metas).take 5
          ++ (List.insertionSort docYearR metas).drop 5
          = List.insertionSort docYearR metas :=
      List.take_append_drop 5 _
    have hp : ((List.insertionSort docYearR metas).take 5
        ++ (List.insertionSort docYearR metas).drop 5).Pairwise docYearR := by
      rw [hsplit]
      exact hs
    exact (List.pairwise_append.mp hp).2.2 y hy x hx
  · intro numTopics keyword context
    refine ⟨promptSeg1 ++ toString numTopics ++ promptSeg2 ++ keyword
        ++ promptSeg3,
      promptSeg4 ++ context ++ promptSeg5 ++ exampleJsonStructure
        ++ promptSeg6, ?_⟩
    simp [promptText, String.append_assoc]

/-- Witness for C5 at a concrete metadata list. -/
theorem generator_latest_digest_witness :
    (⟨some "Mid", none, none, none⟩ : DocMeta).year = none ∧
    yearKey ⟨some "Mid", none, none, none⟩ = 0 ∧
    (List.insertionSort docYearR
        [⟨some "Old", none, some 1999, none⟩,
         ⟨some "New", none, some 2021, none⟩]).Perm
      [⟨some "Old", none, some 1999, none⟩,
       ⟨some "New", none, some 2021, none⟩] ∧
    ∃ pre post : String,
      promptText 5 "kw" "ctx"
          (latestPapersDigest [⟨some "Old", none, some 1999, none⟩])
        = pre ++ latestPapersDigest [⟨some "Old", none, some 1999, none⟩]
          ++ post :=
  ⟨rfl,
   (generator_latest_digest [⟨some "Mid", none, none, none⟩]).2.2.1 _ rfl,
   (generator_latest_digest
      [⟨some "Old", none, some 1999, none⟩,
       ⟨some "New", none, some 2021, none⟩]).1,
   (generator_latest_digest
      [⟨some "Old", none, some 1999, none⟩]).2.2.2.2.2 5 "kw" "ctx"⟩

/-- Filtering by a predicate that relates all its satisfying elements
commutes with an ordered insert: the inserted element lands in front of
the filtered tail when it satisfies the predicate, and disappears
otherwise. -/
theorem filter_orderedInsert {α : Type _} (r : α → α → Prop) [DecidableRel r]
    (p : α → Bool) (hp : ∀ x y, p x = true → p y = true → r x y)
    (a : α) (l : List α) :
    (l.orderedInsert r a).filter p =
      if p a then a :: l.filter p else l.filter p := by
  rw [List.orderedInsert_eq_take_drop, List.filter_append]
  have hld := List.takeWhile_append_dropWhile (fun b => decide ¬r a b) l
  by_cases hpa : p a = true
  · have hnil : (List.takeWhile (fun b => decide ¬r a b) l).filter p = [] := by
      rw [List.filter_eq_nil_iff]
      intro x hx hpx
      have hrx : ¬r a x := by simpa using List.mem_takeWhile_imp hx
      exact hrx (hp a x hpa hpx)
    rw [hnil, if_pos hpa, List.filter_cons_of_pos hpa]
    conv_rhs => rw [← hld]
    rw [List.filter_append, hnil]
    simp
  · rw [if_neg hpa, List.filter_cons_of_neg hpa]
    conv_rhs => rw [← hld]
    rw [List.filter_append]

/-- Stability of `insertionSort`, filter form: sorting does not change the
subsequence of elements satisfying a predicate that relates all its
satisfying elements (for a key-based sort, the elements with any one fixed
key value). -/
theorem filter_insertionSort {α : Type _} (r : α → α → Prop) [DecidableRel r]
    (p : α → Bool) (hp : ∀ x y, p x = true → p y = true → r x y) :
    ∀ l : List α, (List.insertionSort r l).filter p = l.filter p := by
  intro l
  induction l with
  | nil => rfl
  | cons a l ih =>
    show (List.orderedInsert r a (List.insertionSort r l)).filter p = _
    rw [filter_orderedInsert r p hp]
    by_cases hpa : p a = true
    · rw [if_pos hpa, ih, List.filter_cons_of_pos hpa]
    · rw [if_neg hpa, ih, List.filter_cons_of_neg hpa]

/-- C3: `evaluate_topics` returns a permutation of the evaluated input
topics that is sorted by total score in descending order, and the sort is
stable: for every total-score value `c`, the output entries with total `c`
are exactly the input entries with total `c`, in the same order. -/
theorem evaluate_topics_sorted_stable :
    ∀ (ev : ResearchTopic → Option EvaluationResult)
      (topics : List ResearchTopic),
      (evaluateTopics ev topics).Perm (topics.map (evalStep ev)) ∧
      (evaluateTopics ev topics).Pairwise
        (fun a b => b.evaluation.total_score ≤ a.evaluation.total_score) ∧
      ∀ c : Int,
        (evaluateTopics ev topics).filter
            (fun x => decide (x.evaluation.total_score = c))
          = (topics.map (evalStep ev)).filter
            (fun x => decide (x.evaluation.total_score = c)) := by
  intro ev topics
  refine ⟨List.perm_insertionSort _ _, List.sorted_insertionSort evalR _, ?_⟩
  intro c
  exact filter_insertionSort evalR
    (fun x => decide (x.evaluation.total_score = c))
    (fun x y hx hy => by
      simp only [decide_eq_true_eq] at hx hy
      unfold evalR
      rw [hx, hy])
    (topics.map (evalStep ev))

/-- A string not containing the separator is returned whole by the
splitter. -/
theorem splitSep_no_sep : ∀ n : List Char, ¬sepChars <:+: n →
    splitSep n = [n]
  | [], _ => rfl
  | [_], _ => rfl
  | c :: d :: cs, h => by
    have hcd : ¬(c = ';' ∧ d = ' ') := by
      rintro ⟨rfl, rfl⟩
      exact h ⟨[], cs, rfl⟩
    rw [splitSep, if_neg hcd,
      splitSep_no_sep (d :: cs) (fun hin => h (hin.trans ⟨[c], [], by simp⟩))]

/-- Splitting a string of the form `n ++ '; ' ++ rest`, where `n` does not
contain the separator, peels off `n` as the first piece. -/
theorem splitSep_append_sep : ∀ (n rest : List Char), ¬sepChars <:+: n →
    splitSep (n ++ sepChars ++ rest) = n :: splitSep rest
  | [], rest, _ => by
    show splitSep (';' :: ' ' :: rest) = [] :: splitSep rest
    rw [splitSep, if_pos ⟨rfl, rfl⟩]
  | [c], rest, _ => by
    show splitSep (c :: ';' :: ' ' :: rest) = [c] :: splitSep rest
    have hcd : ¬(c = ';' ∧ (';' : Char) = ' ') := by
      rintro ⟨rfl, h2⟩
      exact absurd h2 (by decide)
    rw [splitSep, if_neg hcd, splitSep, if_pos ⟨rfl, rfl⟩]
  | c :: d :: n', rest, h => by
    show splitSep (c :: d :: (n' ++ sepChars ++ rest))
      = (c :: d :: n') :: splitSep rest
    have hcd : ¬(c = ';' ∧ d = ' ') := by
      rintro ⟨rfl, rfl⟩
      exact h ⟨[], n', rfl⟩
    have hrec := splitSep_append_sep (d :: n') rest
      (fun hin => h (hin.trans ⟨[c], [], by simp⟩))
    simp only [List.cons_append] at hrec
    rw [splitSep, if_neg hcd, hrec]

/-- The CSV author round trip for separator-free, non-empty name lists:
splitting the `'; '`-join on `'; '` recovers the list. -/
theorem splitSep_joinAuthors :
    ∀ names : List (List Char), names ≠ [] →
      (∀ n ∈ names, ¬sepChars <:+: n) →
      splitSep (joinAuthors names) = names
  | [], h, _ => absurd rfl h
  | [n], _, hn => by
    show splitSep (List.intercalate sepChars [n]) = [n]
    have hone : List.intercalate sepChars [n] = n := by
      simp [List.intercalate]
    rw [hone]
    exact splitSep_no_sep n (hn n (by simp))
  | n :: m :: rest, _, hn => by
    have hjoin : joinAuthors (n :: m :: rest)
        = n ++ sepChars ++ joinAuthors (m :: rest) := by
      simp [joinAuthors, List.intercalate, List.intersperse]
    rw [hjoin, splitSep_append_sep n _ (hn n (by simp)),
      splitSep_joinAuthors (m :: rest) (by simp)
        (fun x hx => hn x (List.mem_cons_of_mem n hx))]

/-- Counterexample to C7 as stated: for the singleton author list whose
name contains `'; '`, and for the empty author list, splitting the
serialized string on `'; '` does not recover the original list. -/
theorem csv_roundtrip_counterexample :
    splitSep (joinAuthors [['a', ';', ' ', 'b']]) = [['a'], ['b']] ∧
    splitSep (joinAuthors [['a', ';', ' ', 'b']]) ≠ [['a', ';', ' ', 'b']] ∧
    splitSep (joinAuthors []) ≠ ([] : List (List Char)) := by
  refine ⟨by decide, by decide, by decide⟩

/-- C7 (amended): CSV serialization joins author names with `'; '`
(in particular `["X", "Y"]` serializes to `"X; Y"`), and splitting on
`'; '` recovers the original list for every non-empty list of names none
of which contains the separator `'; '`.  (The unrestricted round trip is
false: a name containing `'; '` is split apart, and the empty list
serializes to `""`, which splits to `[""]`.) -/
theorem csv_roundtrip_amended :
    joinAuthors [['X'], ['Y']] = "X; Y".data ∧
    ∀ names : List (List Char), names ≠ [] →
      (∀ n ∈ names, ¬sepChars <:+: n) →
      splitSep (joinAuthors names) = names :=
  ⟨by decide, splitSep_joinAuthors⟩

/-- Witness for the amended C7 at the concrete list `["X", "Y"]`. -/
theorem csv_roundtrip_amended_witness :
    ([['X'], ['Y']] : List (List Char)) ≠ [] ∧
    (∀ n ∈ ([['X'], ['Y']] : List (List Char)), ¬sepChars <:+: n) ∧
    splitSep (joinAuthors [['X'], ['Y']]) = [['X'], ['Y']] :=
  ⟨by decide, by decide,
   csv_roundtrip_amended.2 [['X'], ['Y']] (by decide) (by decide)⟩

end RIA
